import Mathlib

/-!
Shallow embedding of `src/lib.rs` of the emoji-commit-type crate: the
`BumpLevel` and `CommitType` enums, their lookup functions, and the
`CommitTypeIterator` over the five commit-type variants. Rust enums become
Lean inductives; `Option<T>` becomes `Option T`; `&'static str` literals
become `String` literals with exactly the characters found in the source
file; the iterator, whose `next` mutates `self.current`, becomes a
function from iterator state to (yielded element, new state).
-/

namespace EmojiCommitType

/-- Rust `enum BumpLevel` (src/lib.rs lines 5-11): a semver bump level. -/
inductive BumpLevel where
  | Major
  | Minor
  | Patch
  | None
deriving DecidableEq

/-- Rust `BumpLevel::name` (src/lib.rs lines 15-22). -/
def BumpLevel.name : BumpLevel → String
  | .Major => "Major"
  | .Minor => "Minor"
  | .Patch => "Patch"
  | .None => "None"

/-- Rust `enum CommitType` (src/lib.rs lines 27-33): a specific commit type,
variants in declaration order Breaking, Feature, Bugfix, Other, Meta. -/
inductive CommitType where
  | Breaking
  | Feature
  | Bugfix
  | Other
  | Meta
deriving DecidableEq, Fintype

/-- Position of a variant in the declaration order of `enum CommitType`
(0 for Breaking through 4 for Meta); this is the canonical order used by
the navigation functions. -/
def CommitType.index : CommitType → Nat
  | .Breaking => 0
  | .Feature => 1
  | .Bugfix => 2
  | .Other => 3
  | .Meta => 4

/-- Rust `CommitType::first_variant` (src/lib.rs line 42). -/
def CommitType.first_variant : CommitType := CommitType.Breaking

/-- Rust `CommitType::last_variant` (src/lib.rs line 45). -/
def CommitType.last_variant : CommitType := CommitType.Meta

/-- Rust `CommitType::next_variant` (src/lib.rs lines 48-56). -/
def CommitType.next_variant : CommitType → Option CommitType
  | .Breaking => some .Feature
  | .Feature => some .Bugfix
  | .Bugfix => some .Other
  | .Other => some .Meta
  | .Meta => none

/-- Rust `CommitType::prev_variant` (src/lib.rs lines 59-67). -/
def CommitType.prev_variant : CommitType → Option CommitType
  | .Breaking => none
  | .Feature => some .Breaking
  | .Bugfix => some .Feature
  | .Other => some .Bugfix
  | .Meta => some .Other

/-- Rust `CommitType::emoji` (src/lib.rs lines 75-83). The string literals
below reproduce, character for character, the literals stored in the source
file. Note that the source file does not contain the emoji one would expect
from the name of the crate: each literal holds the characters obtained by
re-decoding the UTF-8 bytes of the intended emoji as MacRoman. For example
the Breaking literal is the four characters U+F8FF, U+00FC, U+00ED, U+2022,
the MacRoman reading of the byte sequence F0 9F 92 A5 that encodes U+1F4A5
in UTF-8. -/
def CommitType.emoji : CommitType → String
  | .Breaking => "üí•"
  | .Feature => "üéâ"
  | .Bugfix => "üêõ"
  | .Other => "üî•"
  | .Meta => "üåπ"

/-- Rust `CommitType::bump_level` (src/lib.rs lines 86-94). -/
def CommitType.bump_level : CommitType → BumpLevel
  | .Breaking => .Major
  | .Feature => .Minor
  | .Bugfix => .Patch
  | .Other => .Patch
  | .Meta => .None

/-- Rust `CommitType::description` (src/lib.rs lines 97-105). -/
def CommitType.description : CommitType → String
  | .Breaking => "Breaking change"
  | .Feature => "New functionality"
  | .Bugfix => "Bugfix"
  | .Other => "Cleanup / Performance"
  | .Meta => "Meta"

/-- Rust `struct CommitTypeIterator` (src/lib.rs lines 36-38): the iterator
state is its `current` field, an `Option<CommitType>`. -/
structure CommitTypeIterator where
  current : Option CommitType
deriving DecidableEq

/-- Rust `CommitType::iter_variants` (src/lib.rs lines 70-72): a fresh
iterator positioned at `first_variant`. -/
def CommitType.iter_variants : CommitTypeIterator :=
  ⟨some CommitType.first_variant⟩

/-- Rust `Iterator::next` for `CommitTypeIterator` (src/lib.rs lines
117-122): `mem::replace(&mut self.current, commit_type.next_variant())`
returns the old `current` and stores the successor; on `None` the state is
left untouched and `None` is returned. Modelled as (yielded, new state). -/
def CommitTypeIterator.next (it : CommitTypeIterator) :
    Option CommitType × CommitTypeIterator :=
  match it.current with
  | some commit_type => (some commit_type, ⟨commit_type.next_variant⟩)
  | none => (none, it)

/-- Rust `Iterator::size_hint` for `CommitTypeIterator` (src/lib.rs lines
124-133). -/
def CommitTypeIterator.size_hint (it : CommitTypeIterator) :
    Nat × Option Nat :=
  match it.current with
  | some .Breaking => (5, some 5)
  | some .Feature => (4, some 4)
  | some .Bugfix => (3, some 3)
  | some .Other => (2, some 2)
  | some .Meta => (1, some 1)
  | none => (0, some 0)

/-- Rust `ExactSizeIterator::len` for `CommitTypeIterator` (src/lib.rs
lines 136-140): the body is the constant `5`, ignoring the state. -/
def CommitTypeIterator.len (_ : CommitTypeIterator) : Nat := 5

/-- State of the iterator after `n` calls to `next`, discarding outputs. -/
def CommitTypeIterator.stepN : CommitTypeIterator → Nat → CommitTypeIterator
  | it, 0 => it
  | it, n + 1 => (it.next).2.stepN n

/-- Outputs of the first `n` calls to `next` from a given state. -/
def CommitTypeIterator.run : CommitTypeIterator → Nat → List (Option CommitType)
  | _, 0 => []
  | it, n + 1 => (it.next).1 :: (it.next).2.run n

/-- Running the iterator `a + b` steps is running it `a` steps and then
`b` more. -/
theorem CommitTypeIterator.stepN_add (it : CommitTypeIterator) (a b : Nat) :
    it.stepN (a + b) = (it.stepN a).stepN b := by
  induction a generalizing it with
  | zero =>
      rw [Nat.zero_add]
      rfl
  | succ a ih =>
      rw [Nat.succ_add]
      show ((it.next).2).stepN (a + b) = _
      rw [ih]
      rfl

/-- The exhausted state (`current = None`) is a fixed point of stepping. -/
theorem CommitTypeIterator.stepN_exhausted :
    ∀ n : Nat, (CommitTypeIterator.mk none).stepN n = CommitTypeIterator.mk none
  | 0 => rfl
  | n + 1 => CommitTypeIterator.stepN_exhausted n

/-- C1: a freshly constructed iterator yields exactly Breaking, Feature,
Bugfix, Other, Meta over its first five calls to `next`; every call after
the fifth yields none; and the exhausted state has no outgoing transition
(`next` yields none and leaves the state exhausted). -/
theorem iter_variants_yields_all_variants_then_exhausted :
    CommitType.iter_variants.run 5 =
      [some CommitType.Breaking, some CommitType.Feature, some CommitType.Bugfix,
       some CommitType.Other, some CommitType.Meta]
    ∧ (∀ n : Nat, ((CommitType.iter_variants.stepN (5 + n)).next).1 = none)
    ∧ CommitTypeIterator.next ⟨none⟩ = ((none : Option CommitType), ⟨none⟩) := by
  refine ⟨by decide, ?_, by rfl⟩
  intro n
  have h5 : CommitType.iter_variants.stepN 5 = CommitTypeIterator.mk none := by decide
  rw [CommitTypeIterator.stepN_add, h5, CommitTypeIterator.stepN_exhausted]
  rfl

/-- C2: at the reachable state after one element has been produced
(current = Feature, so k = 1), `size_hint` is the exact pair (4, some 4)
as the claim demands, but `len` evaluates to the constant 5, not 5 - 1:
the code hard-codes `len` to 5 and so contradicts its own `size_hint`
and the exact-remaining-length contract the claim states. -/
theorem len_is_constant_five_after_consuming :
    (CommitType.iter_variants.stepN 1).size_hint = (4, some 4)
    ∧ CommitTypeIterator.len (CommitType.iter_variants.stepN 1) = 5
    ∧ CommitTypeIterator.len (CommitType.iter_variants.stepN 1) ≠ 5 - 1 := by
  decide

/-- C3: `next_variant c` is the variant whose canonical position is one
more than that of `c`, and it is none exactly when `c` is Meta; the
function is total over the five variants. -/
theorem next_variant_follows_canonical_order :
    ∀ c : CommitType,
      (∀ c' : CommitType,
        c.next_variant = some c' ↔ CommitType.index c' = CommitType.index c + 1)
      ∧ (c.next_variant = none ↔ c = CommitType.Meta) := by
  decide

/-- C4: `prev_variant c` is the variant whose canonical position is one
less than that of `c`, and it is none exactly when `c` is Breaking; the
function is total over the five variants. -/
theorem prev_variant_follows_canonical_order :
    ∀ c : CommitType,
      (∀ c' : CommitType,
        c.prev_variant = some c' ↔ CommitType.index c' + 1 = CommitType.index c)
      ∧ (c.prev_variant = none ↔ c = CommitType.Breaking) := by
  decide

/-- C5: `next_variant` and `prev_variant` are mutually inverse where
defined: whenever `prev_variant c` is some `p`, `next_variant p` is
some `c`, and whenever `next_variant c` is some `n`, `prev_variant n`
is some `c`. -/
theorem next_prev_mutually_inverse :
    ∀ c : CommitType,
      (∀ p : CommitType, c.prev_variant = some p → p.next_variant = some c)
      ∧ (∀ m : CommitType, c.next_variant = some m → m.prev_variant = some c) := by
  decide

/-- Witness for C5 at a concrete input: Feature has predecessor Breaking,
whose successor is Feature again, and symmetrically. -/
theorem next_prev_mutually_inverse_witness :
    CommitType.next_variant CommitType.Breaking = some CommitType.Feature
    ∧ CommitType.prev_variant CommitType.Feature = some CommitType.Breaking :=
  ⟨(next_prev_mutually_inverse CommitType.Feature).1 CommitType.Breaking (by decide),
   (next_prev_mutually_inverse CommitType.Breaking).2 CommitType.Feature (by decide)⟩

/-- C6: `first_variant` is Breaking and `last_variant` is Meta, and they
are the minimum and maximum of the canonical order; both are constants
that never fail. -/
theorem first_breaking_last_meta :
    CommitType.first_variant = CommitType.Breaking
    ∧ CommitType.last_variant = CommitType.Meta
    ∧ (∀ c : CommitType,
        CommitType.index CommitType.first_variant ≤ CommitType.index c
        ∧ CommitType.index c ≤ CommitType.index CommitType.last_variant) := by
  decide

/-- C7: `bump_level` equals the fixed table Breaking to Major, Feature to
Minor, Bugfix to Patch, Other to Patch, Meta to None, and Breaking is the
only variant mapped to Major. -/
theorem bump_level_matches_table :
    CommitType.bump_level CommitType.Breaking = BumpLevel.Major
    ∧ CommitType.bump_level CommitType.Feature = BumpLevel.Minor
    ∧ CommitType.bump_level CommitType.Bugfix = BumpLevel.Patch
    ∧ CommitType.bump_level CommitType.Other = BumpLevel.Patch
    ∧ CommitType.bump_level CommitType.Meta = BumpLevel.None
    ∧ (∀ c : CommitType,
        CommitType.bump_level c = BumpLevel.Major ↔ c = CommitType.Breaking) := by
  decide

/-- C8: evaluation of `emoji` on every variant. The strings stored in the
source are the MacRoman re-decodings of the UTF-8 bytes of the intended
emoji, so in particular `emoji Breaking` is not the collision-symbol emoji
U+1F4A5 that the specification requires; the mapping is nevertheless still
injective. -/
theorem emoji_literals_are_mojibake :
    CommitType.emoji CommitType.Breaking = "üí•"
    ∧ CommitType.emoji CommitType.Feature = "üéâ"
    ∧ CommitType.emoji CommitType.Bugfix = "üêõ"
    ∧ CommitType.emoji CommitType.Other = "üî•"
    ∧ CommitType.emoji CommitType.Meta = "üåπ"
    ∧ CommitType.emoji CommitType.Breaking ≠ "💥"
    ∧ (∀ c c' : CommitType, CommitType.emoji c = CommitType.emoji c' ↔ c = c') := by
  decide

/-- C9: `BumpLevel.name` returns the identifier of each level as a display
string, for all four levels. -/
theorem bump_level_name_matches_identifier :
    BumpLevel.name BumpLevel.Major = "Major"
    ∧ BumpLevel.name BumpLevel.Minor = "Minor"
    ∧ BumpLevel.name BumpLevel.Patch = "Patch"
    ∧ BumpLevel.name BumpLevel.None = "None" := by
  decide

/-- C10: `description` equals the bare-label table, and no returned string
contains the character sequence of the word SemVer, so no description
embeds a SemVer bump hint. -/
theorem description_is_bare_label_table :
    CommitType.description CommitType.Breaking = "Breaking change"
    ∧ CommitType.description CommitType.Feature = "New functionality"
    ∧ CommitType.description CommitType.Bugfix = "Bugfix"
    ∧ CommitType.description CommitType.Other = "Cleanup / Performance"
    ∧ CommitType.description CommitType.Meta = "Meta"
    ∧ (∀ c : CommitType,
        ¬ List.IsInfix (String.toList "SemVer") (String.toList (CommitType.description c))) := by
  decide

end EmojiCommitType
